import Mathlib

/-!
Shallow embedding of the Rust-ADB library (host-side client that shells out
to the `adb` command-line tool).  Subprocess execution is modelled by an
explicit `World` state carrying an oracle `exec : Nat → AttemptOutcome`
giving the outcome of the n-th spawned subprocess, together with a log of
spawned commands, performed sleeps and a wall-clock oracle.  The
time-bounded exponential-backoff policy of the `backoff` crate is
abstracted by the number of extra attempts it grants before giving up
(`ExponentialBackoff.max_elapsed_retries`); within that bound the retry
loop is modelled faithfully: retry on every (transient) error, first
success wins, last error is kept when the budget is exhausted.
Strings are Lean `String`s; the Rust string primitives used by the code
(`lines`, `split_whitespace`, `split`, `trim`, `contains`, `starts_with`,
`parse::<i32>`) are modelled below for ASCII text.
-/

namespace RustADB

/-- Does `pat` occur as a contiguous sublist of `hay`?  (The list-level
substring test behind Rust `str::contains`.) -/
def occursIn (pat : List Char) : List Char → Bool
  | [] => pat.isPrefixOf ([] : List Char)
  | c :: t => pat.isPrefixOf (c :: t) || occursIn pat t

/-- Model of Rust `str::contains` (substring test; empty pattern holds). -/
def rustContains (s pat : String) : Bool :=
  occursIn pat.data s.data

/-- Model of Rust `str::starts_with`. -/
def rustStartsWith (s pre : String) : Bool :=
  pre.data.isPrefixOf s.data

/-- Split a character list at every character satisfying `p`, keeping empty
pieces, as Rust `str::split(char)` does. -/
def splitCharList (p : Char → Bool) : List Char → List (List Char)
  | [] => [[]]
  | c :: t =>
    if p c then [] :: splitCharList p t
    else
      match splitCharList p t with
      | [] => [[c]]
      | h :: r => (c :: h) :: r

/-- Model of Rust `str::split(char)`. -/
def rustSplitChar (s : String) (c : Char) : List String :=
  (splitCharList (fun d => d = c) s.data).map (fun l => ⟨l⟩)

/-- Split at every non-overlapping occurrence of `pat`, scanning left to
right; `fuel` bounds the recursion (the input length suffices). -/
def splitOnGo (pat : List Char) : Nat → List Char → List Char → List (List Char)
  | 0, s, acc => [acc.reverse ++ s]
  | f + 1, s, acc =>
    match s with
    | [] => [acc.reverse]
    | c :: rest =>
      if pat.isPrefixOf s then acc.reverse :: splitOnGo pat f (s.drop pat.length) []
      else splitOnGo pat f rest (c :: acc)

/-- Model of Rust `str::split(&str)` for a non-empty pattern. -/
def rustSplitStr (s pat : String) : List String :=
  (splitOnGo pat.data s.data.length s.data []).map (fun l => ⟨l⟩)

/-- Model of Rust `str::trim` (ASCII whitespace on both ends). -/
def rustTrim (s : String) : String :=
  ⟨((s.data.dropWhile Char.isWhitespace).reverse.dropWhile Char.isWhitespace).reverse⟩

/-- Strip one trailing carriage return, as Rust `lines` does on
newline-terminated lines. -/
def stripCR (l : String) : String :=
  match l.data.reverse with
  | '\r' :: t => ⟨t.reverse⟩
  | _ => l

/-- Model of Rust `str::lines`: split at `\n`, strip a `\r` left at the end
of a `\n`-terminated line, and do not produce a final empty line for a
trailing newline. -/
def rustLines (s : String) : List String :=
  if s = "" then []
  else
    (rustSplitChar s '\n').dropLast.map stripCR ++
      (match (rustSplitChar s '\n').getLast? with
       | some "" => []
       | some l => [l]
       | none => [])

/-- Model of Rust `str::split_whitespace` (ASCII whitespace). -/
def splitWhitespaceR (s : String) : List String :=
  ((splitCharList Char.isWhitespace s.data).filter (fun t => t ≠ [])).map
    (fun l => ⟨l⟩)

/-- Digits of an ASCII decimal numeral, or `none` when empty or non-digit. -/
def digitsToNat : List Char → Option Nat
  | [] => none
  | cs =>
    if cs.all Char.isDigit then
      some (cs.foldl (fun n c => n * 10 + (c.toNat - 48)) 0)
    else none

/-- Model of Rust `i32::from_str` (`str::parse::<i32>`): optional sign,
ASCII digits only, `none` on overflow of the 32-bit range. -/
def rustParseI32 (s : String) : Option Int :=
  match s.data with
  | '+' :: rest =>
    (digitsToNat rest).bind (fun n => if n ≤ 2147483647 then some (n : Int) else none)
  | '-' :: rest =>
    (digitsToNat rest).bind (fun n => if n ≤ 2147483648 then some (-(n : Int)) else none)
  | _ =>
    (digitsToNat s.data).bind (fun n => if n ≤ 2147483647 then some (n : Int) else none)

/-- Remove all trailing occurrences of a character, as Rust
`trim_end_matches(char)` does. -/
def trimEndMatchesChar (s : String) (c : Char) : String :=
  ⟨(s.data.reverse.dropWhile (fun d => d = c)).reverse⟩

/-- The error enumeration of `src/error.rs` (the constructors used by the
functions modelled here). -/
inductive ADBError where
  | IOError (msg : String)
  | DeviceNotFound (msg : String)
  | CommandFailed (msg : String)
  | Timeout (msg : String)
  | Parse (msg : String)
  | ConnectionTimeout (msg : String)
  | ConnectionRetry (msg : String)
  | WirelessConnection (msg : String)
  | FileTransfer (msg : String)
  | PackageInstallation (msg : String)
  | PackageUninstallation (msg : String)
  deriving DecidableEq, Repr

/-- The `thiserror` `Display` rendering of the errors above. -/
def renderError : ADBError → String
  | .IOError m => "IO error: " ++ m
  | .DeviceNotFound m => "Device not found: " ++ m
  | .CommandFailed m => "Command failed: " ++ m
  | .Timeout m => "Timeout error: " ++ m
  | .Parse m => "Parse error: " ++ m
  | .ConnectionTimeout m => "Connection timeout: " ++ m
  | .ConnectionRetry m => "Connection retry failed: " ++ m
  | .WirelessConnection m => "Wireless connection error: " ++ m
  | .FileTransfer m => "File transfer error: " ++ m
  | .PackageInstallation m => "Package installation error: " ++ m
  | .PackageUninstallation m => "Package uninstallation error: " ++ m

/-- Outcome of one spawned subprocess: an I/O-level failure (spawn error or
async timeout), or a completed process with an exit status and captured
stdout/stderr text. -/
inductive AttemptOutcome where
  | ioErr (msg : String)
  | output (success : Bool) (stdout stderr : String)
  deriving DecidableEq, Repr

/-- Abstraction of `backoff::ExponentialBackoff` with
`max_elapsed_time = Some(timeout)`: the time-bounded policy is modelled by
the number of extra attempts it grants before giving up. -/
structure ExponentialBackoff where
  max_elapsed_retries : Nat
  deriving DecidableEq, Repr

/-- The `ADB` struct of `src/lib.rs` (`bin`, `timeout`, `backoff`);
the timeout is kept in milliseconds. -/
structure ADB where
  bin : String
  timeout : Nat
  backoff : ExponentialBackoff
  deriving DecidableEq, Repr

/-- External world threaded through every operation: the subprocess oracle,
the log of spawned commands, the count of `run_adb`/`run_adb_async` calls,
performed sleeps, a wall-clock oracle for `Instant::elapsed` queries, and
the filesystem-existence oracle for `Path::exists`. -/
structure World where
  exec : Nat → AttemptOutcome
  log : List String
  runCalls : Nat
  sleeps : List Nat
  elapsed : Nat → Nat
  clockQueries : Nat
  fsExists : String → Bool

/-- Record a sleep of the given number of milliseconds. -/
def sleepMs (d : Nat) (w : World) : World :=
  { w with sleeps := w.sleeps ++ [d] }

/-- Query `start_time.elapsed().as_millis()` through the wall-clock oracle. -/
def queryElapsed (w : World) : Nat × World :=
  (w.elapsed w.clockQueries, { w with clockQueries := w.clockQueries + 1 })

/-- The retried closure of `run_adb`: spawn once; a successful exit status
yields the captured stdout, a failing one yields `CommandFailed(stderr)`,
and a spawn-level I/O error is converted by `?` into `ADBError::IO`. -/
def operation : AttemptOutcome → Except ADBError String
  | .ioErr m => .error (.IOError m)
  | .output true so _ => .ok so
  | .output false _ se => .error (.CommandFailed se)

/-- The error an attempt outcome produces (meaningful when it fails). -/
def errOf (a : AttemptOutcome) : ADBError :=
  match operation a with
  | .error e => e
  | .ok _ => .CommandFailed ""

/-- `backoff::retry` within the granted budget: each attempt spawns one
subprocess (consulting the oracle at the current spawn index and recording
the command); first success wins, otherwise retry; when the budget is
exhausted the last error is returned. -/
def runAttempts (cmd : String) : Nat → World → Except ADBError String × World
  | fuel, w =>
    match operation (w.exec w.log.length) with
    | .ok s => (.ok s, { w with log := w.log ++ [cmd] })
    | .error e =>
      match fuel with
      | 0 => (.error e, { w with log := w.log ++ [cmd] })
      | f + 1 => runAttempts cmd f { w with log := w.log ++ [cmd] }

/-- `ADB::run_adb` of `src/lib.rs`: retry the operation under the backoff
policy; on final failure wrap the last error in
`CommandFailed("Command failed after retries: …")`. -/
def run_adb (adb : ADB) (cmd : String) (w : World) :
    Except ADBError String × World :=
  (match (runAttempts cmd adb.backoff.max_elapsed_retries
      { w with runCalls := w.runCalls + 1 }).1 with
   | .ok s => .ok s
   | .error e =>
     .error (.CommandFailed ("Command failed after retries: " ++ renderError e)),
   (runAttempts cmd adb.backoff.max_elapsed_retries
      { w with runCalls := w.runCalls + 1 }).2)

/-- `ADB::run_adb_async` of `src/lib.rs`: identical retry structure, with
the async failure prefix; an async timeout surfaces as an `ioErr` outcome
of the attempt. -/
def run_adb_async (adb : ADB) (cmd : String) (w : World) :
    Except ADBError String × World :=
  (match (runAttempts cmd adb.backoff.max_elapsed_retries
      { w with runCalls := w.runCalls + 1 }).1 with
   | .ok s => .ok s
   | .error e =>
     .error (.CommandFailed ("Async command failed after retries: " ++ renderError e)),
   (runAttempts cmd adb.backoff.max_elapsed_retries
      { w with runCalls := w.runCalls + 1 }).2)

/-- The `Device` record of `src/device.rs`. -/
structure Device where
  serial : String
  state : String
  product : Option String
  model : Option String
  device : Option String
  transport_id : Option String
  deriving DecidableEq, Repr

/-- One step of the key:value loop of `parse_device_line`: a token that
splits at `:` into exactly two pieces updates the matching optional field,
every other token is ignored. -/
def updDevice (d : Device) (part : String) : Device :=
  match rustSplitChar part ':' with
  | [k, v] =>
    if k = "product" then { d with product := some v }
    else if k = "model" then { d with model := some v }
    else if k = "device" then { d with device := some v }
    else if k = "transport_id" then { d with transport_id := some v }
    else d
  | _ => d

/-- `ADB::parse_device_line` of `src/device.rs`. -/
def parse_device_line (line : String) : Option Device :=
  match splitWhitespaceR line with
  | p0 :: p1 :: rest =>
    some (rest.foldl updDevice
      { serial := p0, state := p1, product := none, model := none,
        device := none, transport_id := none })
  | _ => none

/-- The pure part of `ADB::refresh_device_list`: parse the tool's output,
skipping the header line and blank lines. -/
def deviceListOf (output : String) : List Device :=
  ((rustLines output).drop 1).foldl
    (fun acc line =>
      if rustTrim line = "" then acc
      else
        match parse_device_line line with
        | some d => acc ++ [d]
        | none => acc) []

/-- `ADB::refresh_device_list` of `src/device.rs`. -/
def refresh_device_list (adb : ADB) (w : World) :
    Except ADBError (List Device) × World :=
  match run_adb adb "devices -l" w with
  | (.error e, w1) => (.error e, w1)
  | (.ok result, w1) => (.ok (deviceListOf result), w1)

/-- `ADB::install_app` of `src/package.rs`. -/
def install_app (adb : ADB) (device apk_path : String) (w : World) :
    Except ADBError Unit × World :=
  match run_adb adb ("-s " ++ device ++ " install -r " ++ apk_path) w with
  | (.error e, w1) => (.error e, w1)
  | (.ok output, w1) =>
    if !(rustContains output "Success") then
      (.error (.PackageInstallation output), w1)
    else (.ok (), w1)

/-- `ADB::uninstall_app` of `src/package.rs`. -/
def uninstall_app (adb : ADB) (device package_name : String) (w : World) :
    Except ADBError Unit × World :=
  match run_adb adb ("-s " ++ device ++ " uninstall " ++ package_name) w with
  | (.error e, w1) => (.error e, w1)
  | (.ok output, w1) =>
    if !(rustContains output "Success") then
      (.error (.PackageUninstallation output), w1)
    else (.ok (), w1)

/-- `ADB::push_file` of `src/file_ops.rs`: a missing local file is rejected
before any subprocess is spawned. -/
def push_file (adb : ADB) (device local_path remote_path : String) (w : World) :
    Except ADBError Unit × World :=
  if !(w.fsExists local_path) then
    (.error (.FileTransfer ("Local file not found: " ++ local_path)), w)
  else
    match run_adb adb ("-s " ++ device ++ " push " ++ local_path ++ " " ++ remote_path) w with
    | (.error e, w1) => (.error e, w1)
    | (.ok output, w1) =>
      if !(rustContains output "pushed") && !(rustContains output "transferred") then
        (.error (.FileTransfer output), w1)
      else (.ok (), w1)

/-- `ADB::push_file_async` of `src/file_ops.rs` (same shape over the async
primitive). -/
def push_file_async (adb : ADB) (device local_path remote_path : String) (w : World) :
    Except ADBError Unit × World :=
  if !(w.fsExists local_path) then
    (.error (.FileTransfer ("Local file not found: " ++ local_path)), w)
  else
    match run_adb_async adb ("-s " ++ device ++ " push " ++ local_path ++ " " ++ remote_path) w with
    | (.error e, w1) => (.error e, w1)
    | (.ok output, w1) =>
      if !(rustContains output "pushed") && !(rustContains output "transferred") then
        (.error (.FileTransfer output), w1)
      else (.ok (), w1)

/-- The `SystemInfo` record of `src/system_info.rs`. -/
structure SystemInfo where
  android_version : String
  sdk_version : String
  device_arch : String
  security_patch : String
  build_fingerprint : String
  kernel_version : String
  bootloader : String
  baseband : String
  system_partition : String
  encryption_state : String
  deriving DecidableEq, Repr

/-- The `BatteryInfo` record of `src/system_info.rs`; the `f32` divisions
by 10 and 1000 are modelled over the rationals. -/
structure BatteryInfo where
  level : Int
  temperature : Rat
  voltage : Rat
  current : Option Int
  status : String
  health : String
  is_charging : Bool
  power_source : String
  technology : String
  capacity : Option Int
  deriving DecidableEq, Repr

/-- `ADB::extract_prop_value` of `src/system_info.rs`. -/
def extract_prop_value (line : String) : String :=
  match (rustSplitStr line "]: [")[1]? with
  | some s => trimEndMatchesChar s ']'
  | none => ""

/-- `ADB::extract_value` of `src/system_info.rs`. -/
def extract_value (line : String) : String :=
  match (rustSplitChar line ':')[1]? with
  | some s => rustTrim s
  | none => ""

/-- `ADB::parse_int_value` of `src/system_info.rs`: the text after the
first `:`, trimmed and parsed as `i32`, defaulting to 0. -/
def parse_int_value (line : String) : Int :=
  match (rustSplitChar line ':')[1]? with
  | some s => (rustParseI32 (rustTrim s)).getD 0
  | none => 0

/-- One line of the `getprop` parsing loop of `get_system_info`. -/
def updSystemInfo (info : SystemInfo) (line : String) : SystemInfo :=
  if rustContains line "[ro.build.version.release]" then
    { info with android_version := extract_prop_value line }
  else if rustContains line "[ro.build.version.sdk]" then
    { info with sdk_version := extract_prop_value line }
  else if rustContains line "[ro.product.cpu.abi]" then
    { info with device_arch := extract_prop_value line }
  else if rustContains line "[ro.build.version.security_patch]" then
    { info with security_patch := extract_prop_value line }
  else if rustContains line "[ro.build.fingerprint]" then
    { info with build_fingerprint := extract_prop_value line }
  else if rustContains line "[ro.build.version.kernel]" then
    { info with kernel_version := extract_prop_value line }
  else if rustContains line "[ro.bootloader]" then
    { info with bootloader := extract_prop_value line }
  else if rustContains line "[ro.build.expect.baseband]" then
    { info with baseband := extract_prop_value line }
  else if rustContains line "[ro.build.system_root_image]" then
    { info with system_partition := extract_prop_value line }
  else if rustContains line "[ro.crypto.state]" then
    { info with encryption_state := extract_prop_value line }
  else info

/-- The all-empty `SystemInfo` the parsing loop starts from. -/
def emptySystemInfo : SystemInfo :=
  { android_version := "", sdk_version := "", device_arch := "",
    security_patch := "", build_fingerprint := "", kernel_version := "",
    bootloader := "", baseband := "", system_partition := "",
    encryption_state := "" }

/-- The pure parsing part of `ADB::get_system_info`. -/
def systemInfoOf (props : String) : SystemInfo :=
  (rustLines props).foldl updSystemInfo emptySystemInfo

/-- `ADB::get_system_info` of `src/system_info.rs` (`get_device_props` is
one `run_adb` of `-s <device> shell getprop`). -/
def get_system_info (adb : ADB) (device : String) (w : World) :
    Except ADBError SystemInfo × World :=
  match run_adb adb ("-s " ++ device ++ " shell getprop") w with
  | (.error e, w1) => (.error e, w1)
  | (.ok props, w1) => (.ok (systemInfoOf props), w1)

/-- The default `BatteryInfo` the battery parsing loop starts from. -/
def emptyBatteryInfo : BatteryInfo :=
  { level := 0, temperature := 0, voltage := 0, current := none,
    status := "", health := "", is_charging := false, power_source := "",
    technology := "", capacity := none }

/-- One line of the `dumpsys battery` parsing loop of `get_battery_info`
(the line is trimmed first, as in the source). -/
def updBatteryInfo (info : BatteryInfo) (rawLine : String) : BatteryInfo :=
  let line := rustTrim rawLine
  if rustStartsWith line "level:" then
    { info with level := parse_int_value line }
  else if rustStartsWith line "temperature:" then
    { info with temperature := Rat.divInt (parse_int_value line) 10 }
  else if rustStartsWith line "voltage:" then
    { info with voltage := Rat.divInt (parse_int_value line) 1000 }
  else if rustStartsWith line "current now:" then
    { info with current := some (parse_int_value line) }
  else if rustStartsWith line "status:" then
    { info with status := extract_value line }
  else if rustStartsWith line "health:" then
    { info with health := extract_value line }
  else if rustStartsWith line "plugged:" then
    { info with
      is_charging := parse_int_value line != 0,
      power_source :=
        if parse_int_value line = 1 then "AC"
        else if parse_int_value line = 2 then "USB"
        else if parse_int_value line = 4 then "Wireless"
        else "Unknown" }
  else if rustStartsWith line "technology:" then
    { info with technology := extract_value line }
  else if rustStartsWith line "capacity:" then
    { info with capacity := some (parse_int_value line) }
  else info

/-- The pure parsing part of `ADB::get_battery_info`. -/
def batteryInfoOf (output : String) : BatteryInfo :=
  (rustLines output).foldl updBatteryInfo emptyBatteryInfo

/-- `ADB::get_battery_info` of `src/system_info.rs`. -/
def get_battery_info (adb : ADB) (device : String) (w : World) :
    Except ADBError BatteryInfo × World :=
  match run_adb adb ("-s " ++ device ++ " shell dumpsys battery") w with
  | (.error e, w1) => (.error e, w1)
  | (.ok output, w1) => (.ok (batteryInfoOf output), w1)

/-- The `NetworkDiagnostics` record of `src/wireless.rs`. -/
structure NetworkDiagnostics where
  wifi_enabled : Bool
  mobile_data_enabled : Bool
  connected_networks : List String
  ip_routes : String
  deriving DecidableEq, Repr

/-- `ADB::parse_connected_networks` of `src/wireless.rs`. -/
def parse_connected_networks (network_info : String) : List String :=
  (rustLines network_info).foldl
    (fun networks line =>
      if rustContains line "NetworkAgentInfo" && rustContains line "CONNECTED" then
        if rustContains line "WIFI" then networks ++ ["WiFi"]
        else if rustContains line "MOBILE" then networks ++ ["Mobile"]
        else if rustContains line "ETHERNET" then networks ++ ["Ethernet"]
        else networks
      else networks) []

/-- `ADB::forward_port` of `src/wireless.rs`. -/
def forward_port (adb : ADB) (device : String) (local_port remote_port : Nat)
    (w : World) : Except ADBError Unit × World :=
  match run_adb adb ("-s " ++ device ++ " forward tcp:" ++ toString local_port
      ++ " tcp:" ++ toString remote_port) w with
  | (.error e, w1) => (.error e, w1)
  | (.ok _, w1) => (.ok (), w1)

/-- `ADB::setup_dev_forwarding` of `src/wireless.rs`: four consecutive
`forward_port` calls. -/
def setup_dev_forwarding (adb : ADB) (device : String) (w : World) :
    Except ADBError Unit × World :=
  match forward_port adb device 8080 8080 w with
  | (.error e, w1) => (.error e, w1)
  | (.ok _, w1) =>
    match forward_port adb device 3000 3000 w1 with
    | (.error e, w2) => (.error e, w2)
    | (.ok _, w2) =>
      match forward_port adb device 5000 5000 w2 with
      | (.error e, w3) => (.error e, w3)
      | (.ok _, w3) => forward_port adb device 5037 5037 w3

/-- `ADB::get_network_diagnostics` of `src/wireless.rs`: three `run_adb`
invocations, then a pure record construction. -/
def get_network_diagnostics (adb : ADB) (device : String) (w : World) :
    Except ADBError NetworkDiagnostics × World :=
  match run_adb adb ("-s " ++ device ++ " shell dumpsys wifi") w with
  | (.error e, w1) => (.error e, w1)
  | (.ok wifi_info, w1) =>
    match run_adb adb ("-s " ++ device ++ " shell dumpsys connectivity") w1 with
    | (.error e, w2) => (.error e, w2)
    | (.ok network_info, w2) =>
      match run_adb adb ("-s " ++ device ++ " shell ip route") w2 with
      | (.error e, w3) => (.error e, w3)
      | (.ok ip_info, w3) =>
        (.ok { wifi_enabled := rustContains wifi_info "Wi-Fi is enabled",
               mobile_data_enabled := rustContains network_info "MOBILE",
               connected_networks := parse_connected_networks network_info,
               ip_routes := ip_info }, w3)

/-- The `for attempt in 1..=MAX_RETRIES` loop of `connect_wireless`,
indexed by the number of attempts still available (5 at entry).  Each
iteration runs the connect command through the retry primitive, succeeds
when the output contains "connected", checks the 10000 ms elapsed-time
cutoff, and sleeps a constant 2000 ms before every non-final retry. -/
def connectLoop (adb : ADB) (ip : String) (port : Nat) :
    Nat → World → Except ADBError Unit × World
  | 0, w =>
    (.error (.ConnectionRetry ("Failed to connect to " ++ ip ++ ":"
      ++ toString port ++ " after 5 attempts")), w)
  | n + 1, w =>
    let r := run_adb adb ("connect " ++ ip ++ ":" ++ toString port) w
    match r.1 with
    | .error e => (.error e, r.2)
    | .ok output =>
      if rustContains output "connected" then (.ok (), r.2)
      else
        let t := (queryElapsed r.2).1
        let w2 := (queryElapsed r.2).2
        if 10000 < t then
          (.error (.ConnectionTimeout "Connection timeout after 10000ms"), w2)
        else if 0 < n then connectLoop adb ip port n (sleepMs 2000 w2)
        else connectLoop adb ip port n w2

/-- `ADB::connect_wireless` of `src/wireless.rs` (MAX_RETRIES = 5,
RETRY_DELAY_MS = 2000, CONNECTION_TIMEOUT_MS = 10000). -/
def connect_wireless (adb : ADB) (ip : String) (port : Nat) (w : World) :
    Except ADBError Unit × World :=
  connectLoop adb ip port 5 w

/-- The `AppPermissions` record of `src/device_management.rs`. -/
structure AppPermissions where
  package_name : String
  permissions : List String
  requested_permissions : List String
  granted_permissions : List String
  denied_permissions : List String
  deriving DecidableEq, Repr

/-- `ADB::extract_permission_from_line` of `src/device_management.rs`. -/
def extract_permission_from_line (line : String) : Option String :=
  match (rustSplitStr line "permission.")[1]? with
  | none => none
  | some rest => (splitWhitespaceR rest)[0]?

/-- One line of the permissions loop of `parse_app_permissions`. -/
def updPermissions (acc : List String × List String) (line : String) :
    List String × List String :=
  if rustContains line "granted=true" then
    match extract_permission_from_line line with
    | some perm => (acc.1 ++ [perm], acc.2)
    | none => acc
  else if rustContains line "granted=false" then
    match extract_permission_from_line line with
    | some perm => (acc.1, acc.2 ++ [perm])
    | none => acc
  else acc

/-- `ADB::parse_app_permissions` of `src/device_management.rs`: collect
granted and denied permissions line by line, then set the requested list
to granted followed by denied; the `permissions` field is never filled. -/
def parse_app_permissions (dumpsys_output package_name : String) :
    AppPermissions :=
  match (rustLines dumpsys_output).foldl updPermissions ([], []) with
  | (granted, denied) =>
    { package_name := package_name,
      permissions := [],
      requested_permissions := granted ++ denied,
      granted_permissions := granted,
      denied_permissions := denied }

/-- `ADB::get_app_permissions` of `src/device_management.rs`. -/
def get_app_permissions (adb : ADB) (device package_name : String) (w : World) :
    Except ADBError AppPermissions × World :=
  match run_adb adb ("-s " ++ device ++ " shell dumpsys package " ++ package_name) w with
  | (.error e, w1) => (.error e, w1)
  | (.ok output, w1) => (.ok (parse_app_permissions output package_name), w1)

/-- A library call's full state: the `ADB` value the Rust methods receive
through `&self`, together with the external world. -/
structure Sys where
  adb : ADB
  world : World

/-- `run_adb` as a transition on the full state (the method takes `&self`,
so the `ADB` value is read, never written). -/
def runAdbS (s : Sys) (cmd : String) : Except ADBError String × Sys :=
  ((run_adb s.adb cmd s.world).1,
    { adb := s.adb, world := (run_adb s.adb cmd s.world).2 })

/-- `install_app` as a transition on the full state. -/
def installAppS (s : Sys) (device apk_path : String) :
    Except ADBError Unit × Sys :=
  ((install_app s.adb device apk_path s.world).1,
    { adb := s.adb, world := (install_app s.adb device apk_path s.world).2 })

/-- `push_file` as a transition on the full state. -/
def pushFileS (s : Sys) (device local_path remote_path : String) :
    Except ADBError Unit × Sys :=
  ((push_file s.adb device local_path remote_path s.world).1,
    { adb := s.adb, world := (push_file s.adb device local_path remote_path s.world).2 })

/-- `connect_wireless` as a transition on the full state. -/
def connectWirelessS (s : Sys) (ip : String) (port : Nat) :
    Except ADBError Unit × Sys :=
  ((connect_wireless s.adb ip port s.world).1,
    { adb := s.adb, world := (connect_wireless s.adb ip port s.world).2 })

/-- `get_battery_info` as a transition on the full state. -/
def getBatteryInfoS (s : Sys) (device : String) :
    Except ADBError BatteryInfo × Sys :=
  ((get_battery_info s.adb device s.world).1,
    { adb := s.adb, world := (get_battery_info s.adb device s.world).2 })

/-- `refresh_device_list` as a transition on the full state. -/
def refreshDeviceListS (s : Sys) : Except ADBError (List Device) × Sys :=
  ((refresh_device_list s.adb s.world).1,
    { adb := s.adb, world := (refresh_device_list s.adb s.world).2 })

/-- `get_network_diagnostics` as a transition on the full state. -/
def getNetworkDiagnosticsS (s : Sys) (device : String) :
    Except ADBError NetworkDiagnostics × Sys :=
  ((get_network_diagnostics s.adb device s.world).1,
    { adb := s.adb, world := (get_network_diagnostics s.adb device s.world).2 })

/-- `setup_dev_forwarding` as a transition on the full state. -/
def setupDevForwardingS (s : Sys) (device : String) :
    Except ADBError Unit × Sys :=
  ((setup_dev_forwarding s.adb device s.world).1,
    { adb := s.adb, world := (setup_dev_forwarding s.adb device s.world).2 })

/-- Decidable equality for `Except` results, used to evaluate concrete
runs. -/
instance decEqExcept {ε α : Type} [DecidableEq ε] [DecidableEq α] :
    DecidableEq (Except ε α) := fun x y =>
  match x, y with
  | .ok a, .ok b =>
    if h : a = b then isTrue (by rw [h])
    else isFalse (by intro hc; cases hc; exact h rfl)
  | .ok _, .error _ => isFalse (by intro hc; cases hc)
  | .error _, .ok _ => isFalse (by intro hc; cases hc)
  | .error e, .error f =>
    if h : e = f then isTrue (by rw [h])
    else isFalse (by intro hc; cases hc; exact h rfl)

/-- Whether a retried attempt produced a success. -/
def isOkResult : Except ADBError String → Bool
  | .ok _ => true
  | .error _ => false

/-- Whether a subprocess completed with a successful exit status. -/
def isSuccessOutcome : AttemptOutcome → Bool
  | .output true _ _ => true
  | _ => false

/-- The captured stdout of a completed subprocess. -/
def stdoutOf : AttemptOutcome → String
  | .output _ so _ => so
  | .ioErr _ => ""

/-- A sample `ADB` value granting two extra retry attempts. -/
def adbW1 : ADB :=
  { bin := "adb", timeout := 5000, backoff := { max_elapsed_retries := 2 } }

/-- A world in which every spawned subprocess fails, with a distinct stderr
text per spawn index. -/
def failWorld : World :=
  { exec := fun n => .output false "" ("err" ++ toString n),
    log := [], runCalls := 0, sleeps := [], elapsed := fun _ => 0,
    clockQueries := 0, fsExists := fun _ => true }

/-- A world in which every spawned subprocess succeeds with stdout "ok". -/
def okWorld : World :=
  { exec := fun _ => .output true "ok" "",
    log := [], runCalls := 0, sleeps := [], elapsed := fun _ => 0,
    clockQueries := 0, fsExists := fun _ => true }

/-- When every attempt within the budget fails, the bounded retry loop
returns the error of the last attempt and nothing else. -/
theorem runAttempts_fail (cmd : String) : ∀ (fuel : Nat) (w : World),
    (∀ k, k ≤ fuel → isOkResult (operation (w.exec (w.log.length + k))) = false) →
    (runAttempts cmd fuel w).1 = .error (errOf (w.exec (w.log.length + fuel))) := by
  intro fuel
  induction fuel with
  | zero =>
    intro w h
    have h0 := h 0 (Nat.le_refl 0)
    rw [Nat.add_zero] at h0
    unfold runAttempts
    cases hop : operation (w.exec w.log.length) with
    | ok s => rw [hop] at h0; simp [isOkResult] at h0
    | error e => simp [errOf, hop, Nat.add_zero]
  | succ f ih =>
    intro w h
    have h0 := h 0 (Nat.zero_le _)
    rw [Nat.add_zero] at h0
    unfold runAttempts
    cases hop : operation (w.exec w.log.length) with
    | ok s => rw [hop] at h0; simp [isOkResult] at h0
    | error e =>
      simp only [hop]
      have hlen : ({ w with log := w.log ++ [cmd] } : World).log.length
          = w.log.length + 1 := by simp
      have hih := ih { w with log := w.log ++ [cmd] } (by
        intro k hk
        simp only [hlen]
        have harith : w.log.length + 1 + k = w.log.length + (k + 1) := by omega
        rw [harith]
        exact h (k + 1) (Nat.succ_le_succ hk))
      simp only [hlen] at hih
      have harith : w.log.length + 1 + f = w.log.length + (f + 1) := by omega
      rw [harith] at hih
      exact hih

/-- C1: for every command, when every retry attempt of `run_adb` (and of
`run_adb_async`) fails, the returned error is built from exactly the last
attempt's error, wrapped in the fixed "failed after retries" message; the
bounded retry loop is the only recovery behaviour at this boundary. -/
theorem run_adb_returns_last_error : ∀ (adb : ADB) (cmd : String) (w : World),
    (∀ k, k ≤ adb.backoff.max_elapsed_retries →
      isOkResult (operation (w.exec (w.log.length + k))) = false) →
    (run_adb adb cmd w).1 = .error (.CommandFailed
        ("Command failed after retries: " ++
          renderError (errOf (w.exec (w.log.length + adb.backoff.max_elapsed_retries))))) ∧
    (run_adb_async adb cmd w).1 = .error (.CommandFailed
        ("Async command failed after retries: " ++
          renderError (errOf (w.exec (w.log.length + adb.backoff.max_elapsed_retries))))) := by
  intro adb cmd w h
  have hfail := runAttempts_fail cmd adb.backoff.max_elapsed_retries
    { w with runCalls := w.runCalls + 1 } (by simpa using h)
  constructor
  · show (match (runAttempts cmd adb.backoff.max_elapsed_retries
        { w with runCalls := w.runCalls + 1 }).1 with
      | .ok s => (.ok s : Except ADBError String)
      | .error e =>
        .error (.CommandFailed ("Command failed after retries: " ++ renderError e))) = _
    rw [hfail]
  · show (match (runAttempts cmd adb.backoff.max_elapsed_retries
        { w with runCalls := w.runCalls + 1 }).1 with
      | .ok s => (.ok s : Except ADBError String)
      | .error e =>
        .error (.CommandFailed ("Async command failed after retries: " ++ renderError e))) = _
    rw [hfail]

/-- C1 witness: with a budget of two extra attempts and every attempt
failing with stderr "err0", "err1", "err2", both primitives surface the
final attempt's error "err2". -/
theorem run_adb_returns_last_error_witness :
    (run_adb adbW1 "devices" failWorld).1 =
      .error (.CommandFailed "Command failed after retries: Command failed: err2") ∧
    (run_adb_async adbW1 "devices" failWorld).1 =
      .error (.CommandFailed "Async command failed after retries: Command failed: err2") :=
  run_adb_returns_last_error adbW1 "devices" failWorld (by decide)

/-- C4: every modelled public operation takes the `ADB` value by shared
reference: the `bin`, `timeout` and `backoff` fields it carries are
identical before and after the call, so no call can affect a later call
through the library's own state. -/
theorem operations_preserve_adb_state :
    ∀ (s : Sys) (cmd device apk lp rp ip : String) (port : Nat),
    (runAdbS s cmd).2.adb = s.adb ∧
    (runAdbS s cmd).2.adb.bin = s.adb.bin ∧
    (runAdbS s cmd).2.adb.timeout = s.adb.timeout ∧
    (runAdbS s cmd).2.adb.backoff = s.adb.backoff ∧
    (installAppS s device apk).2.adb = s.adb ∧
    (pushFileS s device lp rp).2.adb = s.adb ∧
    (connectWirelessS s ip port).2.adb = s.adb ∧
    (getBatteryInfoS s device).2.adb = s.adb ∧
    (refreshDeviceListS s).2.adb = s.adb ∧
    (getNetworkDiagnosticsS s device).2.adb = s.adb ∧
    (setupDevForwardingS s device).2.adb = s.adb := by
  intro s cmd device apk lp rp ip port
  exact ⟨rfl, rfl, rfl, rfl, rfl, rfl, rfl, rfl, rfl, rfl, rfl⟩

/-- C9: when the local path does not exist, `push_file` and
`push_file_async` return the `FileTransfer` error naming the path and leave
the world — including the subprocess log — completely unchanged: no
subprocess is spawned and no external state is touched. -/
theorem push_file_missing_local : ∀ (adb : ADB) (device lp rp : String) (w : World),
    w.fsExists lp = false →
    push_file adb device lp rp w =
      (.error (.FileTransfer ("Local file not found: " ++ lp)), w) ∧
    push_file_async adb device lp rp w =
      (.error (.FileTransfer ("Local file not found: " ++ lp)), w) := by
  intro adb device lp rp w h
  constructor
  · unfold push_file
    rw [h]
    rfl
  · unfold push_file_async
    rw [h]
    rfl

/-- A world whose filesystem oracle reports every path as missing. -/
def noFileWorld : World :=
  { exec := fun _ => .output true "ok" "",
    log := [], runCalls := 0, sleeps := [], elapsed := fun _ => 0,
    clockQueries := 0, fsExists := fun _ => false }

/-- C9 witness: pushing `/tmp/x` in a world where it does not exist yields
the `FileTransfer` error and the world is untouched. -/
theorem push_file_missing_local_witness :
    push_file adbW1 "emulator-5554" "/tmp/x" "/sdcard/x" noFileWorld =
      (.error (.FileTransfer "Local file not found: /tmp/x"), noFileWorld) ∧
    push_file_async adbW1 "emulator-5554" "/tmp/x" "/sdcard/x" noFileWorld =
      (.error (.FileTransfer "Local file not found: /tmp/x"), noFileWorld) :=
  push_file_missing_local adbW1 "emulator-5554" "/tmp/x" "/sdcard/x" noFileWorld rfl

/-- C6: once the underlying command execution has succeeded with output
text `out`, `install_app` returns `Ok` exactly when `out` contains the
substring "Success" and otherwise returns `PackageInstallation out`;
`uninstall_app` behaves the same with `PackageUninstallation`. -/
theorem install_uninstall_success_substring :
    ∀ (adb : ADB) (device apk pkg : String) (w : World) (out1 out2 : String),
    ((run_adb adb ("-s " ++ device ++ " install -r " ++ apk) w).1 = .ok out1 →
      ((install_app adb device apk w).1 = .ok () ↔ rustContains out1 "Success" = true) ∧
      (rustContains out1 "Success" = false →
        (install_app adb device apk w).1 = .error (.PackageInstallation out1))) ∧
    ((run_adb adb ("-s " ++ device ++ " uninstall " ++ pkg) w).1 = .ok out2 →
      ((uninstall_app adb device pkg w).1 = .ok () ↔ rustContains out2 "Success" = true) ∧
      (rustContains out2 "Success" = false →
        (uninstall_app adb device pkg w).1 = .error (.PackageUninstallation out2))) := by
  intro adb device apk pkg w out1 out2
  constructor
  · intro hok
    unfold install_app
    cases hra : run_adb adb ("-s " ++ device ++ " install -r " ++ apk) w with
    | mk r w1 =>
      rw [hra] at hok
      simp only at hok
      cases r with
      | error e => simp at hok
      | ok o =>
        have ho : o = out1 := by simpa using hok
        subst ho
        cases hc : rustContains o "Success" <;> simp [hc]
  · intro hok
    unfold uninstall_app
    cases hra : run_adb adb ("-s " ++ device ++ " uninstall " ++ pkg) w with
    | mk r w1 =>
      rw [hra] at hok
      simp only at hok
      cases r with
      | error e => simp at hok
      | ok o =>
        have ho : o = out2 := by simpa using hok
        subst ho
        cases hc : rustContains o "Success" <;> simp [hc]

/-- A world whose subprocesses all succeed with a "Success" output. -/
def successWorld : World :=
  { exec := fun _ => .output true "Performing Streamed Install\nSuccess\n" "",
    log := [], runCalls := 0, sleeps := [], elapsed := fun _ => 0,
    clockQueries := 0, fsExists := fun _ => true }

/-- A world whose subprocesses all succeed with a failure-text output. -/
def failureTextWorld : World :=
  { exec := fun _ => .output true "Failure [INSTALL_FAILED_INVALID_APK]" "",
    log := [], runCalls := 0, sleeps := [], elapsed := fun _ => 0,
    clockQueries := 0, fsExists := fun _ => true }

/-- C6 witness: a "Success" output makes `install_app` return `Ok`, and a
"Failure" output makes `uninstall_app` return the uninstallation error
carrying that output. -/
theorem install_uninstall_success_substring_witness :
    (install_app adbW1 "d" "app.apk" successWorld).1 = .ok () ∧
    (uninstall_app adbW1 "d" "com.x" failureTextWorld).1 =
      .error (.PackageUninstallation "Failure [INSTALL_FAILED_INVALID_APK]") := by
  constructor
  · exact ((install_uninstall_success_substring adbW1 "d" "app.apk" "com.x" successWorld
      "Performing Streamed Install\nSuccess\n" "x").1 (by decide)).1.mpr (by decide)
  · exact ((install_uninstall_success_substring adbW1 "d" "app.apk" "com.x" failureTextWorld
      "x" "Failure [INSTALL_FAILED_INVALID_APK]").2 (by decide)).2 (by decide)

/-- C10: for every dumpsys output and package name, the parsed permission
record lists as requested permissions exactly the granted ones followed by
the denied ones, keeps the `permissions` field empty, and carries the given
package name; the same relation holds for every record `get_app_permissions`
returns. -/
theorem app_permissions_requested_split : ∀ (out pkg : String),
    ((parse_app_permissions out pkg).requested_permissions =
      (parse_app_permissions out pkg).granted_permissions ++
        (parse_app_permissions out pkg).denied_permissions) ∧
    (parse_app_permissions out pkg).permissions = [] ∧
    (parse_app_permissions out pkg).package_name = pkg ∧
    (∀ (adb : ADB) (device : String) (w : World) (p : AppPermissions),
      (get_app_permissions adb device pkg w).1 = .ok p →
      p.requested_permissions = p.granted_permissions ++ p.denied_permissions ∧
      p.permissions = []) := by
  intro out pkg
  refine ⟨?_, ?_, ?_, ?_⟩
  · unfold parse_app_permissions
    cases (rustLines out).foldl updPermissions ([], []) with
    | mk g d => rfl
  · unfold parse_app_permissions
    cases (rustLines out).foldl updPermissions ([], []) with
    | mk g d => rfl
  · unfold parse_app_permissions
    cases (rustLines out).foldl updPermissions ([], []) with
    | mk g d => rfl
  · intro adb device w p hp
    unfold get_app_permissions at hp
    cases hra : run_adb adb ("-s " ++ device ++ " shell dumpsys package " ++ pkg) w with
    | mk r w1 =>
      rw [hra] at hp
      cases r with
      | error e => simp at hp
      | ok o =>
        have hpo : p = parse_app_permissions o pkg := by
          simpa using hp.symm
        subst hpo
        refine ⟨?_, ?_⟩
        · unfold parse_app_permissions
          cases (rustLines o).foldl updPermissions ([], []) with
          | mk g d => rfl
        · unfold parse_app_permissions
          cases (rustLines o).foldl updPermissions ([], []) with
          | mk g d => rfl

/-- A sample dumpsys permissions output. -/
def permSample : String :=
  "android.permission.CAMERA: granted=true\nandroid.permission.SEND_SMS: granted=false\n"

/-- A world whose subprocesses all succeed with the sample permissions
dump as stdout. -/
def permWorld : World :=
  { exec := fun _ => .output true permSample "",
    log := [], runCalls := 0, sleeps := [], elapsed := fun _ => 0,
    clockQueries := 0, fsExists := fun _ => true }

/-- C10 witness: the relation instantiated on a record actually returned by
`get_app_permissions` on the sample dump. -/
theorem app_permissions_requested_split_witness :
    (parse_app_permissions permSample "com.x").requested_permissions =
      (parse_app_permissions permSample "com.x").granted_permissions ++
        (parse_app_permissions permSample "com.x").denied_permissions ∧
    (parse_app_permissions permSample "com.x").permissions = [] :=
  (app_permissions_requested_split permSample "com.x").2.2.2 adbW1 "d" permWorld
    (parse_app_permissions permSample "com.x") (by decide)

/-- When the subprocess at the current spawn index exits successfully,
`run_adb` performs exactly one spawn and returns its stdout. -/
theorem run_adb_first_success (adb : ADB) (cmd : String) (w : World)
    (h : isSuccessOutcome (w.exec w.log.length) = true) :
    run_adb adb cmd w = (.ok (stdoutOf (w.exec w.log.length)),
      { w with log := w.log ++ [cmd], runCalls := w.runCalls + 1 }) := by
  unfold run_adb runAttempts
  cases he : w.exec w.log.length with
  | ioErr m => rw [he] at h; simp [isSuccessOutcome] at h
  | output succ so se =>
    cases succ with
    | false => rw [he] at h; simp [isSuccessOutcome] at h
    | true => simp [operation, stdoutOf, he]

/-- C2 counterexample: `get_network_diagnostics` is a public operation, yet
one call to it spawns three subprocesses even when every subprocess
succeeds immediately — not exactly one. -/
theorem one_spawn_per_call_counterexample :
    (get_network_diagnostics adbW1 "emulator-5554" okWorld).2.log.length = 3 ∧
    (3 : Nat) ≠ 1 := by
  constructor
  · decide
  · decide

/-- C2 amended: when every subprocess succeeds at its first attempt, one
`run_adb` call spawns exactly one subprocess and returns its stdout as a
single text blob, but composite public operations make a fixed sequence of
such invocations: `setup_dev_forwarding` spawns four subprocesses and
`get_network_diagnostics` three. -/
theorem spawn_counts_per_operation :
    ∀ (adb : ADB) (w : World) (dev cmd : String),
    (∀ n, isSuccessOutcome (w.exec n) = true) →
    (run_adb adb cmd w).2.log = w.log ++ [cmd] ∧
    (run_adb adb cmd w).1 = .ok (stdoutOf (w.exec w.log.length)) ∧
    (setup_dev_forwarding adb dev w).2.log.length = w.log.length + 4 ∧
    (get_network_diagnostics adb dev w).2.log.length = w.log.length + 3 := by
  intro adb w dev cmd h
  refine ⟨?_, ?_, ?_, ?_⟩
  · rw [run_adb_first_success adb cmd w (h w.log.length)]
  · rw [run_adb_first_success adb cmd w (h w.log.length)]
  · simp only [setup_dev_forwarding, forward_port]
    simp [run_adb_first_success, h]
  · simp only [get_network_diagnostics]
    simp [run_adb_first_success, h]

/-- C2 amended witness: concrete spawn counts in the all-success world. -/
theorem spawn_counts_per_operation_witness :
    (run_adb adbW1 "devices" okWorld).2.log = ["devices"] ∧
    (run_adb adbW1 "devices" okWorld).1 = .ok "ok" ∧
    (setup_dev_forwarding adbW1 "d" okWorld).2.log.length = 4 ∧
    (get_network_diagnostics adbW1 "d" okWorld).2.log.length = 3 :=
  spawn_counts_per_operation adbW1 okWorld "d" "devices" (fun _ => rfl)

/-- A world where every connect attempt completes successfully but reports
text without the substring "connected", and the wall clock never advances. -/
def connWorld : World :=
  { exec := fun _ => .output true "unable to reach device" "",
    log := [], runCalls := 0, sleeps := [], elapsed := fun _ => 0,
    clockQueries := 0, fsExists := fun _ => true }

/-- C3 counterexample: `connect_wireless` carries its own retry loop on top
of the execution primitive: when the tool keeps answering without
"connected" it makes five `run_adb` invocations with a constant 2000 ms
delay between attempts — the inter-attempt delays are all equal, not
exponentially growing — and then fails with `ConnectionRetry`. -/
theorem connect_wireless_constant_delay_counterexample :
    (connect_wireless adbW1 "10.0.0.7" 5555 connWorld).2.sleeps = [2000, 2000, 2000, 2000] ∧
    (connect_wireless adbW1 "10.0.0.7" 5555 connWorld).2.runCalls = 5 ∧
    (connect_wireless adbW1 "10.0.0.7" 5555 connWorld).1 =
      .error (.ConnectionRetry "Failed to connect to 10.0.0.7:5555 after 5 attempts") ∧
    ¬ List.Chain' (fun a b => a < b) [2000, 2000, 2000, 2000] := by
  refine ⟨by decide, by decide, by decide,
    fun hch => absurd (List.chain'_cons.mp hch).1 (by omega)⟩

/-- The retry loop of the primitive performs no sleeps and exactly one
`run_adb` bookkeeping step. -/
theorem run_adb_sleeps_runCalls (adb : ADB) (cmd : String) (w : World) :
    (run_adb adb cmd w).2.sleeps = w.sleeps ∧
    (run_adb adb cmd w).2.runCalls = w.runCalls + 1 := by
  have haux : ∀ (fuel : Nat) (w0 : World),
      (runAttempts cmd fuel w0).2.sleeps = w0.sleeps ∧
      (runAttempts cmd fuel w0).2.runCalls = w0.runCalls := by
    intro fuel
    induction fuel with
    | zero =>
      intro w0
      unfold runAttempts
      cases operation (w0.exec w0.log.length) <;> simp
    | succ f ih =>
      intro w0
      unfold runAttempts
      cases operation (w0.exec w0.log.length) with
      | ok s => simp
      | error e =>
        simp only []
        have := ih { w0 with log := w0.log ++ [cmd] }
        simpa using this
  exact ⟨(haux adb.backoff.max_elapsed_retries { w with runCalls := w.runCalls + 1 }).1,
    (haux adb.backoff.max_elapsed_retries { w with runCalls := w.runCalls + 1 }).2⟩

/-- The connect loop with `n` attempts available sleeps only constant
2000 ms delays (at most `n - 1` of them) and makes at most `n` primitive
invocations. -/
theorem connectLoop_shape : ∀ (n : Nat) (adb : ADB) (ip : String) (port : Nat) (w : World),
    ∃ k, (connectLoop adb ip port n w).2.sleeps = w.sleeps ++ List.replicate k 2000 ∧
      k ≤ n - 1 ∧
      (connectLoop adb ip port n w).2.runCalls ≤ w.runCalls + n := by
  intro n
  induction n with
  | zero =>
    intro adb ip port w
    refine ⟨0, by simp [connectLoop], by simp, by simp [connectLoop]⟩
  | succ n ih =>
    intro adb ip port w
    have hrw := run_adb_sleeps_runCalls adb ("connect " ++ ip ++ ":" ++ toString port) w
    simp only [connectLoop]
    cases hr1 : (run_adb adb ("connect " ++ ip ++ ":" ++ toString port) w).1 with
    | error e =>
      refine ⟨0, by simpa using hrw.1, by simp, ?_⟩
      simp only [List.replicate]
      omega
    | ok output =>
      dsimp only
      by_cases hc : rustContains output "connected" = true
      · rw [if_pos hc]
        refine ⟨0, by simpa using hrw.1, by simp, by simp; omega⟩
      · rw [if_neg hc]
        by_cases ht : 10000 <
            (queryElapsed (run_adb adb ("connect " ++ ip ++ ":" ++ toString port) w).2).1
        · rw [if_pos ht]
          refine ⟨0, ?_, by simp, ?_⟩
          · simpa [queryElapsed] using hrw.1
          · simp only [queryElapsed]
            omega
        · rw [if_neg ht]
          by_cases hn : 0 < n
          · rw [if_pos hn]
            obtain ⟨k, hk1, hk2, hk3⟩ := ih adb ip port
              (sleepMs 2000 (queryElapsed
                (run_adb adb ("connect " ++ ip ++ ":" ++ toString port) w).2).2)
            refine ⟨k + 1, ?_, by omega, ?_⟩
            · rw [hk1]
              simp [sleepMs, queryElapsed, hrw.1, List.replicate_succ]
            · have hrc : (sleepMs 2000 (queryElapsed
                  (run_adb adb ("connect " ++ ip ++ ":" ++ toString port) w).2).2).runCalls
                  = w.runCalls + 1 := by
                simp [sleepMs, queryElapsed, hrw.2]
              omega
          · rw [if_neg hn]
            have hn0 : n = 0 := by omega
            subst hn0
            refine ⟨0, ?_, by simp, ?_⟩
            · simp [connectLoop, queryElapsed, hrw.1]
            · simp only [connectLoop, queryElapsed]
              omega

/-- C3 amended: the execution primitive retries under the time-bounded
backoff policy, but `connect_wireless` additionally wraps it in its own
retry loop: at most five primitive invocations per call, with a constant
2000 ms sleep (at most four of them, never growing) between attempts. -/
theorem connect_wireless_bounded_constant_retry :
    ∀ (adb : ADB) (ip : String) (port : Nat) (w : World),
    ∃ k, (connect_wireless adb ip port w).2.sleeps = w.sleeps ++ List.replicate k 2000 ∧
      k ≤ 4 ∧
      (connect_wireless adb ip port w).2.runCalls ≤ w.runCalls + 5 := by
  intro adb ip port w
  obtain ⟨k, h1, h2, h3⟩ := connectLoop_shape 5 adb ip port w
  exact ⟨k, h1, by omega, h3⟩

/-- Spec-side reading of one device-list token: the value when the token
has exactly the form `key:value` for the given key, and nothing otherwise. -/
def kvValue (key p : String) : Option String :=
  match rustSplitChar p ':' with
  | [k, v] => if k = key then some v else none
  | _ => none

/-- Spec-side reading of the tail tokens: the value of the last token of
exactly the form `key:value` for the given key (later tokens win). -/
def specLastKV (key : String) : List String → Option String
  | [] => none
  | p :: ps => (specLastKV key ps).or (kvValue key p)

theorem updDevice_serial (d : Device) (p : String) :
    (updDevice d p).serial = d.serial := by
  unfold updDevice
  cases h : rustSplitChar p ':' with
  | nil => rfl
  | cons k t =>
    cases t with
    | nil => rfl
    | cons v t2 =>
      cases t2 with
      | nil => dsimp only; split_ifs <;> rfl
      | cons x t3 => rfl

theorem updDevice_state (d : Device) (p : String) :
    (updDevice d p).state = d.state := by
  unfold updDevice
  cases h : rustSplitChar p ':' with
  | nil => rfl
  | cons k t =>
    cases t with
    | nil => rfl
    | cons v t2 =>
      cases t2 with
      | nil => dsimp only; split_ifs <;> rfl
      | cons x t3 => rfl

theorem updDevice_product (d : Device) (p : String) :
    (updDevice d p).product = (kvValue "product" p).or d.product := by
  unfold updDevice kvValue
  cases h : rustSplitChar p ':' with
  | nil => simp
  | cons k t =>
    cases t with
    | nil => simp
    | cons v t2 =>
      cases t2 with
      | nil => dsimp only; split_ifs <;> simp_all [Option.or]
      | cons x t3 => simp

theorem updDevice_model (d : Device) (p : String) :
    (updDevice d p).model = (kvValue "model" p).or d.model := by
  unfold updDevice kvValue
  cases h : rustSplitChar p ':' with
  | nil => simp
  | cons k t =>
    cases t with
    | nil => simp
    | cons v t2 =>
      cases t2 with
      | nil => dsimp only; split_ifs <;> simp_all [Option.or]
      | cons x t3 => simp

theorem updDevice_device (d : Device) (p : String) :
    (updDevice d p).device = (kvValue "device" p).or d.device := by
  unfold updDevice kvValue
  cases h : rustSplitChar p ':' with
  | nil => simp
  | cons k t =>
    cases t with
    | nil => simp
    | cons v t2 =>
      cases t2 with
      | nil => dsimp only; split_ifs <;> simp_all [Option.or]
      | cons x t3 => simp

theorem updDevice_transport_id (d : Device) (p : String) :
    (updDevice d p).transport_id = (kvValue "transport_id" p).or d.transport_id := by
  unfold updDevice kvValue
  cases h : rustSplitChar p ':' with
  | nil => simp
  | cons k t =>
    cases t with
    | nil => simp
    | cons v t2 =>
      cases t2 with
      | nil => dsimp only; split_ifs <;> simp_all [Option.or]
      | cons x t3 => simp

theorem or_assoc_option {α : Type} (a b c : Option α) :
    (a.or b).or c = a.or (b.or c) := by
  cases a <;> cases b <;> simp [Option.or]

theorem foldl_updDevice_serial : ∀ (rest : List String) (d : Device),
    (rest.foldl updDevice d).serial = d.serial := by
  intro rest
  induction rest with
  | nil => intro d; rfl
  | cons p ps ih =>
    intro d
    rw [List.foldl_cons, ih, updDevice_serial]

theorem foldl_updDevice_state : ∀ (rest : List String) (d : Device),
    (rest.foldl updDevice d).state = d.state := by
  intro rest
  induction rest with
  | nil => intro d; rfl
  | cons p ps ih =>
    intro d
    rw [List.foldl_cons, ih, updDevice_state]

theorem foldl_updDevice_product : ∀ (rest : List String) (d : Device),
    (rest.foldl updDevice d).product = (specLastKV "product" rest).or d.product := by
  intro rest
  induction rest with
  | nil => intro d; simp [specLastKV, Option.or]
  | cons p ps ih =>
    intro d
    rw [List.foldl_cons, ih, updDevice_product, specLastKV, or_assoc_option]

theorem foldl_updDevice_model : ∀ (rest : List String) (d : Device),
    (rest.foldl updDevice d).model = (specLastKV "model" rest).or d.model := by
  intro rest
  induction rest with
  | nil => intro d; simp [specLastKV, Option.or]
  | cons p ps ih =>
    intro d
    rw [List.foldl_cons, ih, updDevice_model, specLastKV, or_assoc_option]

theorem foldl_updDevice_device : ∀ (rest : List String) (d : Device),
    (rest.foldl updDevice d).device = (specLastKV "device" rest).or d.device := by
  intro rest
  induction rest with
  | nil => intro d; simp [specLastKV, Option.or]
  | cons p ps ih =>
    intro d
    rw [List.foldl_cons, ih, updDevice_device, specLastKV, or_assoc_option]

theorem foldl_updDevice_transport_id : ∀ (rest : List String) (d : Device),
    (rest.foldl updDevice d).transport_id
      = (specLastKV "transport_id" rest).or d.transport_id := by
  intro rest
  induction rest with
  | nil => intro d; simp [specLastKV, Option.or]
  | cons p ps ih =>
    intro d
    rw [List.foldl_cons, ih, updDevice_transport_id, specLastKV, or_assoc_option]

/-- C5: `parse_device_line` returns `none` for every line with fewer than
two whitespace-separated tokens; for a line with at least two tokens it
returns the device whose serial and state are the first two tokens, and
whose optional fields are taken from the last later token of exactly the
form `key:value` for each known key, every other token being ignored; and
the device-list parser applies this to every non-blank line after the
first line of the output, in line order. -/
theorem parse_device_line_spec :
    (∀ line : String, (splitWhitespaceR line).length < 2 →
      parse_device_line line = none) ∧
    (∀ (line p0 p1 : String) (rest : List String),
      splitWhitespaceR line = p0 :: p1 :: rest →
      parse_device_line line = some
        { serial := p0, state := p1,
          product := specLastKV "product" rest,
          model := specLastKV "model" rest,
          device := specLastKV "device" rest,
          transport_id := specLastKV "transport_id" rest }) ∧
    (∀ output : String, deviceListOf output =
      (((rustLines output).drop 1).filter
        (fun l => rustTrim l ≠ "")).filterMap parse_device_line) := by
  refine ⟨?_, ?_, ?_⟩
  · intro line hlt
    unfold parse_device_line
    cases hs : splitWhitespaceR line with
    | nil => rfl
    | cons p0 t =>
      cases t with
      | nil => rfl
      | cons p1 rest =>
        rw [hs] at hlt
        simp only [List.length_cons] at hlt
        omega
  · intro line p0 p1 rest hs
    unfold parse_device_line
    rw [hs]
    have h1 := foldl_updDevice_serial rest
      { serial := p0, state := p1, product := none, model := none,
        device := none, transport_id := none }
    have h2 := foldl_updDevice_state rest
      { serial := p0, state := p1, product := none, model := none,
        device := none, transport_id := none }
    have h3 := foldl_updDevice_product rest
      { serial := p0, state := p1, product := none, model := none,
        device := none, transport_id := none }
    have h4 := foldl_updDevice_model rest
      { serial := p0, state := p1, product := none, model := none,
        device := none, transport_id := none }
    have h5 := foldl_updDevice_device rest
      { serial := p0, state := p1, product := none, model := none,
        device := none, transport_id := none }
    have h6 := foldl_updDevice_transport_id rest
      { serial := p0, state := p1, product := none, model := none,
        device := none, transport_id := none }
    cases hr : rest.foldl updDevice
        { serial := p0, state := p1, product := none, model := none,
          device := none, transport_id := none } with
    | mk se st pr mo de tr =>
      rw [hr] at h1 h2 h3 h4 h5 h6
      simp only at h1 h2 h3 h4 h5 h6
      simp only [Option.or] at h3 h4 h5 h6
      subst h1 h2
      cases hq : specLastKV "product" rest <;> rw [hq] at h3 <;>
        cases hq2 : specLastKV "model" rest <;> rw [hq2] at h4 <;>
        cases hq3 : specLastKV "device" rest <;> rw [hq3] at h5 <;>
        cases hq4 : specLastKV "transport_id" rest <;> rw [hq4] at h6 <;>
        simp_all
  · intro output
    have haux : ∀ (ls : List String) (acc : List Device),
        ls.foldl (fun acc line =>
          if rustTrim line = "" then acc
          else
            match parse_device_line line with
            | some d => acc ++ [d]
            | none => acc) acc
        = acc ++ (ls.filter (fun l => rustTrim l ≠ "")).filterMap parse_device_line := by
      intro ls
      induction ls with
      | nil => intro acc; simp
      | cons l ls ih =>
        intro acc
        rw [List.foldl_cons]
        by_cases hb : rustTrim l = ""
        · rw [if_pos hb, ih]
          simp [List.filter_cons, hb]
        · rw [if_neg hb]
          cases hp : parse_device_line l with
          | none =>
            rw [ih]
            simp [List.filter_cons, hb, List.filterMap_cons, hp]
          | some d =>
            rw [ih]
            simp [List.filter_cons, hb, List.filterMap_cons, hp]
    unfold deviceListOf
    rw [haux]
    simp

/-- C5 witness: a representative `adb devices -l` line with key:value
tokens, a bare token, and a malformed `a:b:c` token. -/
theorem parse_device_line_spec_witness :
    parse_device_line "emulator-5554 device product:sdk_gphone model:Pixel_5 junk a:b:c transport_id:1" =
      some { serial := "emulator-5554", state := "device",
             product := some "sdk_gphone", model := some "Pixel_5",
             device := none, transport_id := some "1" } := by
  have h := parse_device_line_spec.2.1
    "emulator-5554 device product:sdk_gphone model:Pixel_5 junk a:b:c transport_id:1"
    "emulator-5554" "device"
    ["product:sdk_gphone", "model:Pixel_5", "junk", "a:b:c", "transport_id:1"]
    (by decide)
  rw [h]
  decide

theorem head_of_startsWith (s p : String) (c : Char) (hc : p.data.head? = some c)
    (h : rustStartsWith s p = true) : s.data.head? = some c := by
  unfold rustStartsWith at h
  cases hp2 : p.data with
  | nil => rw [hp2] at hc; simp at hc
  | cons a as =>
    rw [hp2] at hc h
    cases hs : s.data with
    | nil => rw [hs] at h; simp [List.isPrefixOf] at h
    | cons b bs =>
      rw [hs] at h
      simp only [List.isPrefixOf, Bool.and_eq_true, beq_iff_eq] at h
      simp only [List.head?]
      rw [← h.1]
      exact hc

theorem startsWith_clash (s p q : String) (c d : Char) (hcp : p.data.head? = some c)
    (hdq : q.data.head? = some d) (hne : c ≠ d) (hp : rustStartsWith s p = true) :
    rustStartsWith s q = false := by
  cases hq : rustStartsWith s q with
  | false => rfl
  | true =>
    have hs2 := head_of_startsWith s q d hdq hq
    have hcd : some c = some d := by
      rw [← head_of_startsWith s p c hcp hp]
      exact hs2
    exact absurd (Option.some.inj hcd) hne

theorem updBatteryInfo_is_charging (b : BatteryInfo) (l : String) :
    (updBatteryInfo b l).is_charging =
      if rustStartsWith (rustTrim l) "plugged:" = true
      then parse_int_value (rustTrim l) != 0 else b.is_charging := by
  by_cases hp : rustStartsWith (rustTrim l) "plugged:" = true
  · rw [if_pos hp]
    have c1 := startsWith_clash (rustTrim l) "plugged:" "level:" 'p' 'l'
      (by decide) (by decide) (by decide) hp
    have c2 := startsWith_clash (rustTrim l) "plugged:" "temperature:" 'p' 't'
      (by decide) (by decide) (by decide) hp
    have c3 := startsWith_clash (rustTrim l) "plugged:" "voltage:" 'p' 'v'
      (by decide) (by decide) (by decide) hp
    have c4 := startsWith_clash (rustTrim l) "plugged:" "current now:" 'p' 'c'
      (by decide) (by decide) (by decide) hp
    have c5 := startsWith_clash (rustTrim l) "plugged:" "status:" 'p' 's'
      (by decide) (by decide) (by decide) hp
    have c6 := startsWith_clash (rustTrim l) "plugged:" "health:" 'p' 'h'
      (by decide) (by decide) (by decide) hp
    simp [updBatteryInfo, c1, c2, c3, c4, c5, c6, hp]
  · rw [if_neg hp]
    simp only [updBatteryInfo]
    split_ifs <;> simp_all

theorem updBatteryInfo_power_source (b : BatteryInfo) (l : String) :
    (updBatteryInfo b l).power_source =
      if rustStartsWith (rustTrim l) "plugged:" = true
      then (if parse_int_value (rustTrim l) = 1 then "AC"
            else if parse_int_value (rustTrim l) = 2 then "USB"
            else if parse_int_value (rustTrim l) = 4 then "Wireless"
            else "Unknown")
      else b.power_source := by
  by_cases hp : rustStartsWith (rustTrim l) "plugged:" = true
  · rw [if_pos hp]
    have c1 := startsWith_clash (rustTrim l) "plugged:" "level:" 'p' 'l'
      (by decide) (by decide) (by decide) hp
    have c2 := startsWith_clash (rustTrim l) "plugged:" "temperature:" 'p' 't'
      (by decide) (by decide) (by decide) hp
    have c3 := startsWith_clash (rustTrim l) "plugged:" "voltage:" 'p' 'v'
      (by decide) (by decide) (by decide) hp
    have c4 := startsWith_clash (rustTrim l) "plugged:" "current now:" 'p' 'c'
      (by decide) (by decide) (by decide) hp
    have c5 := startsWith_clash (rustTrim l) "plugged:" "status:" 'p' 's'
      (by decide) (by decide) (by decide) hp
    have c6 := startsWith_clash (rustTrim l) "plugged:" "health:" 'p' 'h'
      (by decide) (by decide) (by decide) hp
    simp [updBatteryInfo, c1, c2, c3, c4, c5, c6, hp]
  · rw [if_neg hp]
    simp only [updBatteryInfo]
    split_ifs <;> simp_all

theorem updBatteryInfo_temperature (b : BatteryInfo) (l : String) :
    (updBatteryInfo b l).temperature =
      if rustStartsWith (rustTrim l) "temperature:" = true
      then Rat.divInt (parse_int_value (rustTrim l)) 10 else b.temperature := by
  by_cases hp : rustStartsWith (rustTrim l) "temperature:" = true
  · rw [if_pos hp]
    have c1 := startsWith_clash (rustTrim l) "temperature:" "level:" 't' 'l'
      (by decide) (by decide) (by decide) hp
    simp [updBatteryInfo, c1, hp]
  · rw [if_neg hp]
    simp only [updBatteryInfo]
    split_ifs <;> simp_all

theorem updBatteryInfo_voltage (b : BatteryInfo) (l : String) :
    (updBatteryInfo b l).voltage =
      if rustStartsWith (rustTrim l) "voltage:" = true
      then Rat.divInt (parse_int_value (rustTrim l)) 1000 else b.voltage := by
  by_cases hp : rustStartsWith (rustTrim l) "voltage:" = true
  · rw [if_pos hp]
    have c1 := startsWith_clash (rustTrim l) "voltage:" "level:" 'v' 'l'
      (by decide) (by decide) (by decide) hp
    have c2 := startsWith_clash (rustTrim l) "voltage:" "temperature:" 'v' 't'
      (by decide) (by decide) (by decide) hp
    simp [updBatteryInfo, c1, c2, hp]
  · rw [if_neg hp]
    simp only [updBatteryInfo]
    split_ifs <;> simp_all

/-- Spec-side reading of a battery dump: the trimmed text of the last line
that starts with the given prefix. -/
def lastTrimmedWith (pre : String) : List String → Option String
  | [] => none
  | l :: ls => (lastTrimmedWith pre ls).or
      (if rustStartsWith (rustTrim l) pre = true then some (rustTrim l) else none)

theorem foldl_battery_is_charging : ∀ (ls : List String) (b : BatteryInfo),
    (ls.foldl updBatteryInfo b).is_charging =
      match lastTrimmedWith "plugged:" ls with
      | some t => parse_int_value t != 0
      | none => b.is_charging := by
  intro ls
  induction ls with
  | nil => intro b; rfl
  | cons l ls ih =>
    intro b
    rw [List.foldl_cons, ih]
    cases hq : lastTrimmedWith "plugged:" ls with
    | some t => simp [lastTrimmedWith, hq, Option.or]
    | none =>
      by_cases hp : rustStartsWith (rustTrim l) "plugged:" = true <;>
        simp [lastTrimmedWith, hq, Option.or, hp, updBatteryInfo_is_charging]

theorem foldl_battery_power_source : ∀ (ls : List String) (b : BatteryInfo),
    (ls.foldl updBatteryInfo b).power_source =
      match lastTrimmedWith "plugged:" ls with
      | some t =>
        if parse_int_value t = 1 then "AC"
        else if parse_int_value t = 2 then "USB"
        else if parse_int_value t = 4 then "Wireless"
        else "Unknown"
      | none => b.power_source := by
  intro ls
  induction ls with
  | nil => intro b; rfl
  | cons l ls ih =>
    intro b
    rw [List.foldl_cons, ih]
    cases hq : lastTrimmedWith "plugged:" ls with
    | some t => simp [lastTrimmedWith, hq, Option.or]
    | none =>
      by_cases hp : rustStartsWith (rustTrim l) "plugged:" = true <;>
        simp [lastTrimmedWith, hq, Option.or, hp, updBatteryInfo_power_source]

theorem foldl_battery_temperature : ∀ (ls : List String) (b : BatteryInfo),
    (ls.foldl updBatteryInfo b).temperature =
      match lastTrimmedWith "temperature:" ls with
      | some t => Rat.divInt (parse_int_value t) 10
      | none => b.temperature := by
  intro ls
  induction ls with
  | nil => intro b; rfl
  | cons l ls ih =>
    intro b
    rw [List.foldl_cons, ih]
    cases hq : lastTrimmedWith "temperature:" ls with
    | some t => simp [lastTrimmedWith, hq, Option.or]
    | none =>
      by_cases hp : rustStartsWith (rustTrim l) "temperature:" = true <;>
        simp [lastTrimmedWith, hq, Option.or, hp, updBatteryInfo_temperature]

theorem foldl_battery_voltage : ∀ (ls : List String) (b : BatteryInfo),
    (ls.foldl updBatteryInfo b).voltage =
      match lastTrimmedWith "voltage:" ls with
      | some t => Rat.divInt (parse_int_value t) 1000
      | none => b.voltage := by
  intro ls
  induction ls with
  | nil => intro b; rfl
  | cons l ls ih =>
    intro b
    rw [List.foldl_cons, ih]
    cases hq : lastTrimmedWith "voltage:" ls with
    | some t => simp [lastTrimmedWith, hq, Option.or]
    | none =>
      by_cases hp : rustStartsWith (rustTrim l) "voltage:" = true <;>
        simp [lastTrimmedWith, hq, Option.or, hp, updBatteryInfo_voltage]

/-- C7: the battery snapshot is built line by line from the dump text:
`is_charging` is true exactly when the integer after "plugged:" (on the
last such line) is nonzero, `power_source` is "AC"/"USB"/"Wireless" for
plugged values 1, 2, 4 and "Unknown" for any other value, `temperature` is
the parsed integer divided by 10, and `voltage` is the parsed integer
divided by 1000 (with the defaults when no such line occurs). -/
theorem battery_info_line_semantics : ∀ output : String,
    ((batteryInfoOf output).is_charging =
      match lastTrimmedWith "plugged:" (rustLines output) with
      | some t => parse_int_value t != 0
      | none => false) ∧
    ((batteryInfoOf output).power_source =
      match lastTrimmedWith "plugged:" (rustLines output) with
      | some t =>
        if parse_int_value t = 1 then "AC"
        else if parse_int_value t = 2 then "USB"
        else if parse_int_value t = 4 then "Wireless"
        else "Unknown"
      | none => "") ∧
    ((batteryInfoOf output).temperature =
      match lastTrimmedWith "temperature:" (rustLines output) with
      | some t => Rat.divInt (parse_int_value t) 10
      | none => 0) ∧
    ((batteryInfoOf output).voltage =
      match lastTrimmedWith "voltage:" (rustLines output) with
      | some t => Rat.divInt (parse_int_value t) 1000
      | none => 0) := by
  intro output
  refine ⟨?_, ?_, ?_, ?_⟩
  · unfold batteryInfoOf
    rw [foldl_battery_is_charging]
    cases lastTrimmedWith "plugged:" (rustLines output) <;> rfl
  · unfold batteryInfoOf
    rw [foldl_battery_power_source]
    cases lastTrimmedWith "plugged:" (rustLines output) <;> rfl
  · unfold batteryInfoOf
    rw [foldl_battery_temperature]
    cases lastTrimmedWith "temperature:" (rustLines output) <;> rfl
  · unfold batteryInfoOf
    rw [foldl_battery_voltage]
    cases lastTrimmedWith "voltage:" (rustLines output) <;> rfl

/-- C8: the battery and system-info parsers are total over the output
text: whenever command execution succeeds, `get_battery_info` and
`get_system_info` return `Ok` of the parsed snapshot — for every output
string, including the empty one, whose snapshot is the all-default record
— and their error branch only ever propagates a command-execution error;
a missing or unparsable numeric field parses to 0. -/
theorem battery_system_parsers_total :
    (∀ (adb : ADB) (device : String) (w : World) (out : String),
      (run_adb adb ("-s " ++ device ++ " shell dumpsys battery") w).1 = .ok out →
      (get_battery_info adb device w).1 = .ok (batteryInfoOf out)) ∧
    (∀ (adb : ADB) (device : String) (w : World) (e : ADBError),
      (get_battery_info adb device w).1 = .error e →
      (run_adb adb ("-s " ++ device ++ " shell dumpsys battery") w).1 = .error e) ∧
    (∀ (adb : ADB) (device : String) (w : World) (out : String),
      (run_adb adb ("-s " ++ device ++ " shell getprop") w).1 = .ok out →
      (get_system_info adb device w).1 = .ok (systemInfoOf out)) ∧
    (∀ (adb : ADB) (device : String) (w : World) (e : ADBError),
      (get_system_info adb device w).1 = .error e →
      (run_adb adb ("-s " ++ device ++ " shell getprop") w).1 = .error e) ∧
    batteryInfoOf "" = emptyBatteryInfo ∧
    systemInfoOf "" = emptySystemInfo ∧
    (∀ line : String, (rustSplitChar line ':')[1]? = none → parse_int_value line = 0) ∧
    (∀ line s : String, (rustSplitChar line ':')[1]? = some s →
      rustParseI32 (rustTrim s) = none → parse_int_value line = 0) := by
  refine ⟨?_, ?_, ?_, ?_, by decide, by decide, ?_, ?_⟩
  · intro adb device w out hok
    unfold get_battery_info
    cases hra : run_adb adb ("-s " ++ device ++ " shell dumpsys battery") w with
    | mk r w1 =>
      rw [hra] at hok
      simp only at hok
      cases r with
      | error e => simp at hok
      | ok o =>
        have ho : o = out := by simpa using hok
        subst ho
        rfl
  · intro adb device w e herr
    unfold get_battery_info at herr
    cases hra : run_adb adb ("-s " ++ device ++ " shell dumpsys battery") w with
    | mk r w1 =>
      rw [hra] at herr
      cases r with
      | error e2 => simpa using herr
      | ok o => simp at herr
  · intro adb device w out hok
    unfold get_system_info
    cases hra : run_adb adb ("-s " ++ device ++ " shell getprop") w with
    | mk r w1 =>
      rw [hra] at hok
      simp only at hok
      cases r with
      | error e => simp at hok
      | ok o =>
        have ho : o = out := by simpa using hok
        subst ho
        rfl
  · intro adb device w e herr
    unfold get_system_info at herr
    cases hra : run_adb adb ("-s " ++ device ++ " shell getprop") w with
    | mk r w1 =>
      rw [hra] at herr
      cases r with
      | error e2 => simpa using herr
      | ok o => simp at herr
  · intro line hn
    unfold parse_int_value
    rw [hn]
  · intro line s hs hp
    unfold parse_int_value
    rw [hs]
    simp [hp]

/-- C8 witness: the ok and error directions exercised on concrete worlds,
and an unparsable numeric line defaulting to 0. -/
theorem battery_system_parsers_total_witness :
    (get_battery_info adbW1 "d" okWorld).1 = .ok (batteryInfoOf "ok") ∧
    (run_adb adbW1 ("-s " ++ "d" ++ " shell dumpsys battery") failWorld).1 =
      .error (.CommandFailed "Command failed after retries: Command failed: err2") ∧
    parse_int_value "level: abc" = 0 := by
  refine ⟨?_, ?_, ?_⟩
  · exact battery_system_parsers_total.1 adbW1 "d" okWorld "ok" (by decide)
  · exact battery_system_parsers_total.2.1 adbW1 "d" failWorld
      (.CommandFailed "Command failed after retries: Command failed: err2") (by decide)
  · exact battery_system_parsers_total.2.2.2.2.2.2.2 "level: abc" " abc" (by decide) (by decide)

end RustADB
